import Mathlib

/-!
Shallow embedding of the Capstone API backend (app.py, models.py, schemas.py,
database.py): a FastAPI service persisting temperature readings, solar PV
samples and a single mutable settings row in SQL tables.

Modelling conventions:
* SQL tables are Lean lists of row structures inside an explicit `DBState`;
  auto-increment primary keys are modelled by counters in the state.
* Python `float` fields are modelled as `Int` (no claim performs float
  arithmetic; only equality, ordering and frame conditions matter).
* Timezone-aware instants (`datetime.now(America/Jamaica)`) are modelled as an
  abstract clock value `now : Int` passed explicitly to each handler; SQLAlchemy
  column `default=get_current_time_in_target_tz` becomes `timestamp := now` at
  insert, and `onupdate=...` becomes `updated_at := now` when a flush emits an
  UPDATE for the row (i.e. when the ORM object differs from its loaded state).
* `HTTPException` raises are modelled with `Except ApiError`; the raises that
  are only reachable through storage faults (commit failure) do not occur in
  the pure model, where every commit succeeds.
* Pydantic parsing of a PATCH body is modelled by `parseSettingsUpdate` over a
  JSON-like association list: unknown keys are dropped (pydantic's default
  `extra='ignore'`), matching schemas.SettingsUpdate, whose only fields are
  temperature_setpoint, ac_timer_on, ac_timer_off, fan_4_speed_percent and
  fan_2_speed_percent.  `model_dump(exclude_unset=True)` is modelled by each
  patch field being `Option`: `none` means the field was not set.
-/

/-- A time-of-day value (`datetime.time`), as used by ac_timer_on/ac_timer_off. -/
structure TimeOfDay where
  hour : Nat
  minute : Nat
deriving DecidableEq

/-- Row of the `temperature_readings` table (models.TemperatureReadingDB). -/
structure TemperatureReadingRow where
  id : Nat
  sensor_id : String
  sensor_name : Option String
  temperature : Int
  sensor_type : String
  battery_level : Option Int
  timestamp : Int
deriving DecidableEq

/-- Row of the `solar_pv_data` table (models.SolarPVDataDB). -/
structure SolarPVRow where
  id : Nat
  panel_voltage : Int
  panel_current : Int
  load_voltage : Int
  load_current : Int
  load_power : Int
  battery_voltage : Int
  battery_current : Int
  sunlight_intensity : Int
  timestamp : Int
deriving DecidableEq

/-- Row of the `system_settings` table (models.SystemSettings).  All parameter
and status columns are nullable in models.py, hence `Option`. -/
structure SystemSettingsRow where
  id : Nat
  temperature_setpoint : Option Int
  ac_timer_on : Option TimeOfDay
  ac_timer_off : Option TimeOfDay
  fan_1_speed_percent : Option Int
  fan_2_speed_percent : Option Int
  fan_3_speed_percent : Option Int
  fan_4_speed_percent : Option Int
  fan_1_status : Option Bool
  fan_4_status : Option Bool
  pump_1_status : Option Bool
  peltier_1_status : Option Bool
  fan_3_status : Option Bool
  fan_2_status : Option Bool
  pump_2_status : Option Bool
  peltier_2_status : Option Bool
  updated_at : Int
deriving DecidableEq

/-- schemas.TemperatureReadingCreate: the request body of POST /temperature. -/
structure TemperatureReadingCreate where
  sensor_id : String
  sensor_name : Option String
  temperature : Int
  sensor_type : String
  battery_level : Option Int
deriving DecidableEq

/-- schemas.SolarPVDataCreate: the request body of POST /solar_pv. -/
structure SolarPVDataCreate where
  panel_voltage : Int
  panel_current : Int
  battery_voltage : Int
  battery_current : Int
  load_voltage : Int
  load_current : Int
  load_power : Int
  sunlight_intensity : Int
deriving DecidableEq

/-- schemas.SettingsUpdate: the editable-field patch schema of PATCH
/api/settings.  A field is `none` when it was not set in the request body
(pydantic `exclude_unset`). -/
structure SettingsUpdate where
  temperature_setpoint : Option Int := none
  ac_timer_on : Option TimeOfDay := none
  ac_timer_off : Option TimeOfDay := none
  fan_4_speed_percent : Option Int := none
  fan_2_speed_percent : Option Int := none
deriving DecidableEq

/-- An HTTPException raised by a handler (status code and detail). -/
inductive ApiError where
  | httpError (code : Nat) (detail : String)
deriving DecidableEq

/-- The persistent store: the three tables plus auto-increment counters for
the two fact streams (system_settings rows carry the fixed id 1). -/
structure DBState where
  temperature_readings : List TemperatureReadingRow
  solar_pv_data : List SolarPVRow
  system_settings : List SystemSettingsRow
  next_temp_id : Nat
  next_solar_id : Nat
deriving DecidableEq

/-- A store with all three tables empty. -/
def emptyDB : DBState :=
  { temperature_readings := []
    solar_pv_data := []
    system_settings := []
    next_temp_id := 1
    next_solar_id := 1 }

/-- The column defaults of models.SystemSettings, applied when a row is
inserted with only id=1 given: setpoint 23.0, timers 07:00/22:00, all four fan
speeds 50, all eight statuses False, updated_at set by the column default to
the current instant. -/
def defaultSettings (now : Int) : SystemSettingsRow :=
  { id := 1
    temperature_setpoint := some 23
    ac_timer_on := some ⟨7, 0⟩
    ac_timer_off := some ⟨22, 0⟩
    fan_1_speed_percent := some 50
    fan_2_speed_percent := some 50
    fan_3_speed_percent := some 50
    fan_4_speed_percent := some 50
    fan_1_status := some false
    fan_4_status := some false
    pump_1_status := some false
    peltier_1_status := some false
    fan_3_status := some false
    fan_2_status := some false
    pump_2_status := some false
    peltier_2_status := some false
    updated_at := now }

/-- The query `select(SystemSettings).where(SystemSettings.id == 1)` used by
get_settings, update_settings and get_system_status. -/
def findSettings (s : DBState) : Option SystemSettingsRow :=
  s.system_settings.find? (fun r => r.id == 1)

/-- Committing a modified settings ORM object: the UPDATE targets the primary
key of the loaded row. -/
def writeSettings (s : DBState) (r : SystemSettingsRow) : DBState :=
  { s with system_settings := s.system_settings.map (fun q => if q.id == r.id then r else q) }

/-- POST /temperature (app.receive_temperature): builds a
TemperatureReadingDB from the request body via `model_dump` (fields copied
verbatim; the timestamp column default assigns the server clock) and commits
it.  The only raise is the 500 on commit failure, which the pure model (where
commits succeed) never produces. -/
def receive_temperature (reading : TemperatureReadingCreate) (now : Int) (s : DBState) :
    Except ApiError (DBState × TemperatureReadingRow) :=
  let db_reading : TemperatureReadingRow :=
    { id := s.next_temp_id
      sensor_id := reading.sensor_id
      sensor_name := reading.sensor_name
      temperature := reading.temperature
      sensor_type := reading.sensor_type
      battery_level := reading.battery_level
      timestamp := now }
  Except.ok
    ({ s with
        temperature_readings := s.temperature_readings ++ [db_reading]
        next_temp_id := s.next_temp_id + 1 },
      db_reading)

/-- Ingesting a batch of readings through the API: the endpoint accepts one
reading per request, so a batch is processed by one POST /temperature call per
element, threading the store and propagating any error. -/
def receive_temperature_batch :
    List TemperatureReadingCreate → Int → DBState →
      Except ApiError (DBState × List TemperatureReadingRow)
  | [], _, s => Except.ok (s, [])
  | b :: bs, now, s =>
    match receive_temperature b now s with
    | Except.error e => Except.error e
    | Except.ok (s1, row) =>
      match receive_temperature_batch bs now s1 with
      | Except.error e => Except.error e
      | Except.ok (s2, rows) => Except.ok (s2, row :: rows)

/-- POST /solar_pv (app.receive_solar_data): builds a SolarPVDataDB from the
request body and commits it; the only raise is the 500 on commit failure. -/
def receive_solar_data (data : SolarPVDataCreate) (now : Int) (s : DBState) :
    Except ApiError (DBState × SolarPVRow) :=
  let db_solar_data : SolarPVRow :=
    { id := s.next_solar_id
      panel_voltage := data.panel_voltage
      panel_current := data.panel_current
      load_voltage := data.load_voltage
      load_current := data.load_current
      load_power := data.load_power
      battery_voltage := data.battery_voltage
      battery_current := data.battery_current
      sunlight_intensity := data.sunlight_intensity
      timestamp := now }
  Except.ok
    ({ s with
        solar_pv_data := s.solar_pv_data ++ [db_solar_data]
        next_solar_id := s.next_solar_id + 1 },
      db_solar_data)

/-- GET /api/settings (app.get_settings): returns the id=1 row, creating it
with the column defaults when absent; the only raise is the 500 on commit
failure of the creation. -/
def get_settings (now : Int) (s : DBState) :
    Except ApiError (DBState × SystemSettingsRow) :=
  match findSettings s with
  | some settings => Except.ok (s, settings)
  | none =>
    let settings := defaultSettings now
    Except.ok ({ s with system_settings := s.system_settings ++ [settings] }, settings)

/-- `settings_update.model_dump(exclude_unset=True)` is empty. -/
def SettingsUpdate.isEmpty (su : SettingsUpdate) : Bool :=
  su.temperature_setpoint.isNone && su.ac_timer_on.isNone && su.ac_timer_off.isNone &&
    su.fan_4_speed_percent.isNone && su.fan_2_speed_percent.isNone

/-- The `for key, value in update_data.items(): setattr(settings, key, value)`
loop of app.update_settings: every key of `update_data` is a field of
schemas.SettingsUpdate and a column of models.SystemSettings, so each set
field is applied. -/
def applySettingsUpdate (su : SettingsUpdate) (r0 : SystemSettingsRow) : SystemSettingsRow :=
  let r1 := match su.temperature_setpoint with
    | some v => { r0 with temperature_setpoint := some v }
    | none => r0
  let r2 := match su.ac_timer_on with
    | some v => { r1 with ac_timer_on := some v }
    | none => r1
  let r3 := match su.ac_timer_off with
    | some v => { r2 with ac_timer_off := some v }
    | none => r2
  let r4 := match su.fan_4_speed_percent with
    | some v => { r3 with fan_4_speed_percent := some v }
    | none => r3
  let r5 := match su.fan_2_speed_percent with
    | some v => { r4 with fan_2_speed_percent := some v }
    | none => r4
  r5

/-- Body of app.update_settings after the settings row has been obtained (and
created when absent): an empty `update_data` returns the current settings
unchanged ("PATCH allows this"); otherwise the set fields are applied and the
commit flushes an UPDATE, whose column `onupdate` sets updated_at, exactly
when the ORM object differs from its loaded state. -/
def updateSettingsCore (su : SettingsUpdate) (now : Int) (s : DBState)
    (settings : SystemSettingsRow) :
    Except ApiError (DBState × SystemSettingsRow) :=
  if su.isEmpty then
    Except.ok (s, settings)
  else
    let applied := applySettingsUpdate su settings
    let final := if applied = settings then applied else { applied with updated_at := now }
    Except.ok (writeSettings s final, final)

/-- PATCH /api/settings (app.update_settings): looks up the id=1 row, creating
it with defaults when absent, then applies the patch via `updateSettingsCore`.
The 500 raises (creation/commit failure) and the post-creation 404 are
unreachable in the pure model. -/
def update_settings (su : SettingsUpdate) (now : Int) (s0 : DBState) :
    Except ApiError (DBState × SystemSettingsRow) :=
  match findSettings s0 with
  | some settings => updateSettingsCore su now s0 settings
  | none =>
    let fresh := defaultSettings now
    let s1 : DBState := { s0 with system_settings := s0.system_settings ++ [fresh] }
    updateSettingsCore su now s1 fresh

/-- A JSON value of a PATCH body field. -/
inductive JsonValue where
  | jnum (n : Int)
  | jbool (b : Bool)
  | jstr (s : String)
  | jtime (t : TimeOfDay)
deriving DecidableEq

/-- Pydantic validation of a PATCH /api/settings body against
schemas.SettingsUpdate: only the five declared fields are read; every other
key (status fields, fan_1/fan_3 speeds, unknown names) is dropped by
pydantic's default `extra='ignore'`.  A declared key of the wrong JSON type
would be a 422 validation error; the model treats it as unset, which no claim
exercises. -/
def parseSettingsUpdate (body : List (String × JsonValue)) : SettingsUpdate :=
  { temperature_setpoint :=
      match body.lookup "temperature_setpoint" with
      | some (JsonValue.jnum n) => some n
      | _ => none
    ac_timer_on :=
      match body.lookup "ac_timer_on" with
      | some (JsonValue.jtime t) => some t
      | _ => none
    ac_timer_off :=
      match body.lookup "ac_timer_off" with
      | some (JsonValue.jtime t) => some t
      | _ => none
    fan_4_speed_percent :=
      match body.lookup "fan_4_speed_percent" with
      | some (JsonValue.jnum n) => some n
      | _ => none
    fan_2_speed_percent :=
      match body.lookup "fan_2_speed_percent" with
      | some (JsonValue.jnum n) => some n
      | _ => none }

/-- The field names of schemas.SettingsUpdate: the keys a PATCH body can
actually set. -/
def editableFieldNames : List String :=
  ["temperature_setpoint", "ac_timer_on", "ac_timer_off",
   "fan_4_speed_percent", "fan_2_speed_percent"]

/-- Ascending timestamp order on temperature readings, as in
`order_by(TemperatureReadingDB.timestamp.asc())`. -/
def tempTsAsc (a b : TemperatureReadingRow) : Prop :=
  a.timestamp ≤ b.timestamp

instance : DecidableRel tempTsAsc := fun a b =>
  inferInstanceAs (Decidable (a.timestamp ≤ b.timestamp))

instance : IsTotal TemperatureReadingRow tempTsAsc :=
  ⟨fun a b => Int.le_total a.timestamp b.timestamp⟩

instance : IsTrans TemperatureReadingRow tempTsAsc :=
  ⟨fun _ _ _ hab hbc => le_trans hab hbc⟩

/-- Descending timestamp order on temperature readings, as in
`order_by(TemperatureReadingDB.timestamp.desc())`. -/
def tempTsDesc (a b : TemperatureReadingRow) : Prop :=
  b.timestamp ≤ a.timestamp

instance : DecidableRel tempTsDesc := fun a b =>
  inferInstanceAs (Decidable (b.timestamp ≤ a.timestamp))

instance : IsTotal TemperatureReadingRow tempTsDesc :=
  ⟨fun a b => Int.le_total b.timestamp a.timestamp⟩

instance : IsTrans TemperatureReadingRow tempTsDesc :=
  ⟨fun _ _ _ hab hbc => le_trans hbc hab⟩

/-- Descending timestamp order on solar samples, as in
`order_by(SolarPVDataDB.timestamp.desc())`. -/
def solarTsDesc (a b : SolarPVRow) : Prop :=
  b.timestamp ≤ a.timestamp

instance : DecidableRel solarTsDesc := fun a b =>
  inferInstanceAs (Decidable (b.timestamp ≤ a.timestamp))

instance : IsTotal SolarPVRow solarTsDesc :=
  ⟨fun a b => Int.le_total b.timestamp a.timestamp⟩

instance : IsTrans SolarPVRow solarTsDesc :=
  ⟨fun _ _ _ hab hbc => le_trans hbc hab⟩

/-- The latest-solar query of app.get_system_status:
`select(SolarPVDataDB).order_by(timestamp.desc()).limit(1)` read with
`db.scalar` (first row or None). -/
def query_latest_solar (s : DBState) : Option SolarPVRow :=
  (s.solar_pv_data.insertionSort solarTsDesc).head?

/-- The response model schemas.SystemStatus of GET /status. -/
structure SystemStatusView where
  temperatures : List TemperatureReadingRow
  solar_data : Option SolarPVRow
  current_settings : Option SystemSettingsRow
deriving DecidableEq

/-- GET /status (app.get_system_status): latest 8 temperatures by descending
timestamp, latest solar sample or None, and the id=1 settings row or None —
the handler only queries; it does not create the settings row when absent
(the code defers creation to /api/settings) and raises nothing: each query is
wrapped in a try/except falling back to an empty list / None. -/
def get_system_status (s : DBState) : DBState × SystemStatusView :=
  (s,
    { temperatures := (s.temperature_readings.insertionSort tempTsDesc).take 8
      solar_data := query_latest_solar s
      current_settings := findSettings s })

/-- The WHERE clauses of GET /api/temperature_history: `if sensor_name:` is
Python truthiness, so an empty-string filter is skipped like an absent one;
`if start_time:` / `if end_time:` test against None (datetime objects are
always truthy). -/
def historyPred (sensor_name : Option String) (start_time end_time : Option Int)
    (r : TemperatureReadingRow) : Bool :=
  (match sensor_name with
    | some n => if n = "" then true else r.sensor_name == some n
    | none => true) &&
  (match start_time with
    | some t => decide (t ≤ r.timestamp)
    | none => true) &&
  (match end_time with
    | some t => decide (r.timestamp ≤ t)
    | none => true)

/-- GET /api/temperature_history (app.get_temperature_history): filters by
sensor name and inclusive time range, orders ascending by timestamp, and
limits the row count (the `limit` query parameter, default 100, modelled as a
Nat).  The only raise is the 500 on a query fault, absent in the pure model. -/
def get_temperature_history (sensor_name : Option String) (limit : Nat)
    (start_time end_time : Option Int) (s : DBState) : List TemperatureReadingRow :=
  (((s.temperature_readings.filter (historyPred sensor_name start_time end_time)).insertionSort
      tempTsAsc).take limit)

/-- The settings-table singleton shape: every row carries the fixed id 1 and
there is at most one row. -/
def settingsTableOk (s : DBState) : Prop :=
  s.system_settings.length ≤ 1 ∧ ∀ r ∈ s.system_settings, r.id = 1

instance (s : DBState) : Decidable (settingsTableOk s) :=
  inferInstanceAs (Decidable (_ ∧ _))

/-- A sample reading with no sensor_name, used to exercise ingestion. -/
def sampleReadingNoName : TemperatureReadingCreate :=
  { sensor_id := "1"
    sensor_name := none
    temperature := 20
    sensor_type := "DS18B20"
    battery_level := none }

/-- A store holding the default settings row created at clock 0. -/
def settingsOnlyDB : DBState :=
  { emptyDB with system_settings := [defaultSettings 0] }

/-- A stored temperature reading with timestamp 5. -/
def historyDemoRow1 : TemperatureReadingRow :=
  { id := 1
    sensor_id := "a"
    sensor_name := none
    temperature := 21
    sensor_type := "probe"
    battery_level := none
    timestamp := 5 }

/-- A stored temperature reading with timestamp 20. -/
def historyDemoRow2 : TemperatureReadingRow :=
  { id := 2
    sensor_id := "a"
    sensor_name := none
    temperature := 22
    sensor_type := "probe"
    battery_level := none
    timestamp := 20 }

/-- A store holding the two demo readings, most recent first. -/
def historyDemoDB : DBState :=
  { emptyDB with temperature_readings := [historyDemoRow2, historyDemoRow1], next_temp_id := 3 }

/-- A sample solar PV request body. -/
def demoSolarInput : SolarPVDataCreate :=
  { panel_voltage := 18
    panel_current := 2
    battery_voltage := 12
    battery_current := 1
    load_voltage := 12
    load_current := 3
    load_power := 36
    sunlight_intensity := 800 }

/-- The row POST /solar_pv persists for `demoSolarInput` at clock 3 on the
empty store. -/
def demoSolarRow : SolarPVRow :=
  { id := 1
    panel_voltage := 18
    panel_current := 2
    load_voltage := 12
    load_current := 3
    load_power := 36
    battery_voltage := 12
    battery_current := 1
    sunlight_intensity := 800
    timestamp := 3 }

/-- The settings singleton is returned unchanged when the PATCH body has no
usable field ("PATCH request received, but no valid fields found to update"). -/
theorem update_settings_empty_patch (su : SettingsUpdate) (now : Int) (s : DBState)
    (r : SystemSettingsRow) (hf : findSettings s = some r) (he : su.isEmpty = true) :
    update_settings su now s = Except.ok (s, r) := by
  unfold update_settings
  rw [hf]
  unfold updateSettingsCore
  rw [he]
  simp

/-- Claim C10: GET /status performs no writes for any store state, and when
the settings singleton is absent it is not created and the view's settings
field is absent. -/
theorem C10_status_readonly (s : DBState) :
    (get_system_status s).1 = s ∧
      (findSettings s = none → (get_system_status s).2.current_settings = none) := by
  refine ⟨rfl, fun h => ?_⟩
  simp [get_system_status, h]

/-- Witness for C10 on the empty store: no settings row exists, and the view
reports the settings as absent. -/
theorem C10_status_readonly_witness :
    (get_system_status emptyDB).2.current_settings = none :=
  (C10_status_readonly emptyDB).2 rfl

/-- Counterexample to claim C4: on the empty store, GET /status does not
invoke get-or-create for the settings singleton — the view's settings field
is None and no settings row is created. -/
theorem C4_status_counterexample :
    (get_system_status emptyDB).2.current_settings = none ∧
      (get_system_status emptyDB).1.system_settings = [] :=
  ⟨rfl, rfl⟩

/-- Claim C4 (amended): GET /status on an empty store never raises: it
returns an empty temperature sequence, an absent solar sample and an absent
settings object, and leaves the store unchanged (no settings row is
created). -/
theorem C4_status_empty_store (s : DBState) (h1 : s.temperature_readings = [])
    (h2 : s.solar_pv_data = []) (h3 : s.system_settings = []) :
    get_system_status s =
      (s, { temperatures := [], solar_data := none, current_settings := none }) := by
  simp [get_system_status, query_latest_solar, findSettings, h1, h2, h3]

/-- Witness for C4 (amended) on the concrete empty store. -/
theorem C4_status_empty_store_witness :
    get_system_status emptyDB =
      (emptyDB, { temperatures := [], solar_data := none, current_settings := none }) :=
  C4_status_empty_store emptyDB rfl rfl rfl

/-- Counterexample to claim C5: ingesting a reading with sensor_name absent
persists a row whose sensor_name is None, not "Sensor_" + sensor_id. -/
theorem C5_sensor_name_counterexample :
    Except.map (fun p => p.2.sensor_name) (receive_temperature sampleReadingNoName 0 emptyDB) =
        Except.ok none ∧
      (none : Option String) ≠ some ("Sensor_" ++ sampleReadingNoName.sensor_id) := by
  refine ⟨rfl, ?_⟩
  decide

/-- Claim C5 (amended): the persisted row's sensor_name is exactly the input's
sensor_name; in particular, when it is absent the stored value is None — no
"Sensor_" + sensor_id default is applied anywhere in the code. -/
theorem C5_sensor_name_verbatim (reading : TemperatureReadingCreate) (now : Int) (s : DBState) :
    Except.map (fun p => p.2.sensor_name) (receive_temperature reading now s) =
      Except.ok reading.sensor_name :=
  rfl

/-- Counterexample to claim C2: the empty batch corresponds to zero calls of
the single-reading endpoint; it persists zero rows but succeeds instead of
failing with a client error. -/
theorem C2_empty_batch_counterexample :
    receive_temperature_batch [] 0 emptyDB = Except.ok (emptyDB, []) :=
  rfl

/-- Claim C2 (amended): POST /temperature accepts exactly one reading per
request and returns the created record, not a count; ingesting a batch by one
call per element always succeeds, persists exactly one row per element, each
with the server-assigned timestamp, and the empty batch persists zero rows
with no client error. -/
theorem C2_per_element_ingestion (batch : List TemperatureReadingCreate) (now : Int)
    (s : DBState) :
    ∃ s1 rows, receive_temperature_batch batch now s = Except.ok (s1, rows) ∧
      rows.length = batch.length ∧
      s1.temperature_readings = s.temperature_readings ++ rows ∧
      ∀ r ∈ rows, r.timestamp = now := by
  induction batch generalizing s with
  | nil => exact ⟨s, [], rfl, rfl, by simp, by simp⟩
  | cons b bs ih =>
    obtain ⟨s2, rows, hEq, hlen, happ, hts⟩ := ih
      { s with
          temperature_readings := s.temperature_readings ++
            [{ id := s.next_temp_id
               sensor_id := b.sensor_id
               sensor_name := b.sensor_name
               temperature := b.temperature
               sensor_type := b.sensor_type
               battery_level := b.battery_level
               timestamp := now }]
          next_temp_id := s.next_temp_id + 1 }
    refine ⟨s2,
      { id := s.next_temp_id
        sensor_id := b.sensor_id
        sensor_name := b.sensor_name
        temperature := b.temperature
        sensor_type := b.sensor_type
        battery_level := b.battery_level
        timestamp := now } :: rows, ?_, ?_, ?_, ?_⟩
    · simp only [receive_temperature_batch, receive_temperature]
      rw [hEq]
    · simpa using hlen
    · rw [happ]; simp
    · intro r hr
      rcases List.mem_cons.mp hr with h1 | h2
      · rw [h1]
      · exact hts r h2

/-- Witness for C2 (amended): a two-element batch on the empty store yields
two created rows. -/
theorem C2_per_element_ingestion_witness :
    Except.map (fun p => p.2.length)
        (receive_temperature_batch [sampleReadingNoName, sampleReadingNoName] 7 emptyDB) =
      Except.ok 2 := by
  obtain ⟨s1, rows, hEq, hlen, -, -⟩ :=
    C2_per_element_ingestion [sampleReadingNoName, sampleReadingNoName] 7 emptyDB
  rw [hEq]
  simp [Except.map, hlen]

/-- Counterexample to claim C3: PATCH /api/settings with an empty patch on a
store whose settings row exists succeeds, returning the unchanged row,
instead of failing with a "nothing to update" client error. -/
theorem C3_empty_patch_counterexample :
    update_settings {} 5 settingsOnlyDB = Except.ok (settingsOnlyDB, defaultSettings 0) :=
  rfl

/-- Claim C3 (amended): with an existing settings row, a patch that is empty
after filtering to editable fields is a no-op success: the handler returns
the current settings and the store is unchanged ("PATCH allows this"). -/
theorem C3_empty_patch_noop (su : SettingsUpdate) (now : Int) (s : DBState)
    (r : SystemSettingsRow) (hf : findSettings s = some r) (he : su.isEmpty = true) :
    update_settings su now s = Except.ok (s, r) :=
  update_settings_empty_patch su now s r hf he

/-- Witness for C3 (amended) on the store holding the default settings row. -/
theorem C3_empty_patch_noop_witness :
    update_settings {} 3 settingsOnlyDB = Except.ok (settingsOnlyDB, defaultSettings 0) :=
  C3_empty_patch_noop {} 3 settingsOnlyDB (defaultSettings 0) rfl rfl

/-- Claim C6: with an existing settings row whose setpoint differs from 25,
PATCH {"temperature_setpoint": 25.0} changes exactly that field, sets
updated_at to the current instant (the column onupdate fires on the flushed
UPDATE), and every other field keeps its prior value. -/
theorem C6_setpoint_patch (now : Int) (s : DBState) (r : SystemSettingsRow)
    (hf : findSettings s = some r) (hne : r.temperature_setpoint ≠ some 25) :
    update_settings { temperature_setpoint := some 25 } now s =
      Except.ok
        (writeSettings s { r with temperature_setpoint := some 25, updated_at := now },
          { r with temperature_setpoint := some 25, updated_at := now }) := by
  have hne2 : ({ r with temperature_setpoint := some 25 } : SystemSettingsRow) ≠ r := by
    intro h
    exact hne (congrArg SystemSettingsRow.temperature_setpoint h).symm
  unfold update_settings
  rw [hf]
  show updateSettingsCore { temperature_setpoint := some 25 } now s r = _
  unfold updateSettingsCore
  have hisE : SettingsUpdate.isEmpty { temperature_setpoint := some 25 } = false := rfl
  rw [hisE]
  have happl : applySettingsUpdate { temperature_setpoint := some 25 } r =
      { r with temperature_setpoint := some 25 } := rfl
  simp only [Bool.false_eq_true, if_false, happl, if_neg hne2]

/-- Witness for C6: patching the default settings row (setpoint 23) at clock
4 yields the row with setpoint 25 and updated_at 4, all else unchanged. -/
theorem C6_setpoint_patch_witness :
    update_settings { temperature_setpoint := some 25 } 4 settingsOnlyDB =
      Except.ok
        (writeSettings settingsOnlyDB
            { defaultSettings 0 with temperature_setpoint := some 25, updated_at := 4 },
          { defaultSettings 0 with temperature_setpoint := some 25, updated_at := 4 }) :=
  C6_setpoint_patch 4 settingsOnlyDB (defaultSettings 0) rfl (by decide)

/-- A lookup over an association list whose keys all differ from the probed
name yields nothing. -/
theorem lookup_none_of_ne (name : String) :
    ∀ body : List (String × JsonValue), (∀ kv ∈ body, kv.1 ≠ name) →
      List.lookup name body = none := by
  intro body
  induction body with
  | nil => intro _; rfl
  | cons kv t ih =>
    intro h
    obtain ⟨k, v⟩ := kv
    have hk : k ≠ name := h (k, v) (List.mem_cons_self _ t)
    have hbeq : (name == k) = false := by
      simp only [beq_eq_false_iff_ne, ne_eq]
      intro hh
      exact hk hh.symm
    show List.lookup name ((k, v) :: t) = none
    simp only [List.lookup, hbeq]
    exact ih (fun kv2 h2 => h kv2 (List.mem_cons_of_mem _ h2))

/-- A PATCH body touching no schemas.SettingsUpdate field parses, after
pydantic drops the unknown keys, to an empty update. -/
theorem parse_isEmpty_of_no_editable (body : List (String × JsonValue))
    (h : ∀ kv ∈ body, kv.1 ∉ editableFieldNames) :
    (parseSettingsUpdate body).isEmpty = true := by
  have h1 : List.lookup "temperature_setpoint" body = none :=
    lookup_none_of_ne _ body (fun kv hkv heq => h kv hkv (by rw [heq]; decide))
  have h2 : List.lookup "ac_timer_on" body = none :=
    lookup_none_of_ne _ body (fun kv hkv heq => h kv hkv (by rw [heq]; decide))
  have h3 : List.lookup "ac_timer_off" body = none :=
    lookup_none_of_ne _ body (fun kv hkv heq => h kv hkv (by rw [heq]; decide))
  have h4 : List.lookup "fan_4_speed_percent" body = none :=
    lookup_none_of_ne _ body (fun kv hkv heq => h kv hkv (by rw [heq]; decide))
  have h5 : List.lookup "fan_2_speed_percent" body = none :=
    lookup_none_of_ne _ body (fun kv hkv heq => h kv hkv (by rw [heq]; decide))
  simp only [parseSettingsUpdate, SettingsUpdate.isEmpty, h1, h2, h3, h4, h5]
  rfl

/-- Claim C7: with an existing settings row, a patch whose keys all lie
outside the editable SettingsUpdate fields — such as the reported-status
field peltier_1_status — leaves the store and the row untouched, including
updated_at: pydantic drops the keys and the handler returns the current
settings before any commit. -/
theorem C7_status_field_patch_noop (body : List (String × JsonValue)) (now : Int)
    (s : DBState) (r : SystemSettingsRow) (hf : findSettings s = some r)
    (hb : ∀ kv ∈ body, kv.1 ∉ editableFieldNames) :
    update_settings (parseSettingsUpdate body) now s = Except.ok (s, r) :=
  update_settings_empty_patch _ now s r hf (parse_isEmpty_of_no_editable body hb)

/-- Witness for C7: PATCH {"peltier_1_status": true} on the default settings
row returns the row unchanged. -/
theorem C7_status_field_patch_noop_witness :
    update_settings (parseSettingsUpdate [("peltier_1_status", JsonValue.jbool true)]) 9
        settingsOnlyDB = Except.ok (settingsOnlyDB, defaultSettings 0) :=
  C7_status_field_patch_noop [("peltier_1_status", JsonValue.jbool true)] 9 settingsOnlyDB
    (defaultSettings 0) rfl (by decide)

/-- The setattr loop never changes the primary key: id is not a
SettingsUpdate field. -/
theorem applySettingsUpdate_id (su : SettingsUpdate) (r : SystemSettingsRow) :
    (applySettingsUpdate su r).id = r.id := by
  unfold applySettingsUpdate
  cases su.temperature_setpoint <;> cases su.ac_timer_on <;> cases su.ac_timer_off <;>
    cases su.fan_4_speed_percent <;> cases su.fan_2_speed_percent <;> rfl

/-- A row returned by the id=1 lookup carries id 1. -/
theorem findSettings_id (t : DBState) (q : SystemSettingsRow)
    (h : findSettings t = some q) : q.id = 1 := by
  have h2 : List.find? (fun r => r.id == 1) t.system_settings = some q := by
    simpa [findSettings] using h
  have h3 := List.find?_some h2
  simpa using h3

/-- When every settings row has id 1 and the id=1 lookup fails, the table is
empty. -/
theorem settings_empty_of_find_none (t : DBState)
    (hids : ∀ r ∈ t.system_settings, r.id = 1) (hfind : findSettings t = none) :
    t.system_settings = [] := by
  cases hcase : t.system_settings with
  | nil => rfl
  | cons x xs =>
    exfalso
    have hx : x.id = 1 := hids x (by rw [hcase]; exact List.mem_cons_self x xs)
    have hnone : List.find? (fun r => r.id == 1) (x :: xs) = none := by
      rw [← hcase]
      simpa [findSettings] using hfind
    have := List.find?_eq_none.mp hnone x (List.mem_cons_self x xs)
    simp [hx] at this

/-- Committing an id=1 row back into a singleton-shaped table keeps the
singleton shape. -/
theorem settingsTableOk_write (t : DBState) (hok : settingsTableOk t)
    (r : SystemSettingsRow) (hid : r.id = 1) : settingsTableOk (writeSettings t r) := by
  obtain ⟨hlen, hids⟩ := hok
  constructor
  · simpa [writeSettings] using hlen
  · intro q hq
    simp only [writeSettings] at hq
    obtain ⟨a, ha, hfa⟩ := List.mem_map.mp hq
    by_cases hc : (a.id == r.id) = true
    · rw [if_pos hc] at hfa; rw [← hfa]; exact hid
    · rw [if_neg hc] at hfa; rw [← hfa]; exact hids a ha

/-- The PATCH body application preserves the singleton shape of the settings
table. -/
theorem settingsTableOk_core (su : SettingsUpdate) (now : Int) (s : DBState)
    (settings : SystemSettingsRow) (hid : settings.id = 1) (hok : settingsTableOk s) :
    ∀ s2 r2, updateSettingsCore su now s settings = Except.ok (s2, r2) →
      settingsTableOk s2 := by
  intro s2 r2 hEq
  simp only [updateSettingsCore] at hEq
  by_cases hsu : su.isEmpty = true
  · rw [if_pos hsu] at hEq
    simp only [Except.ok.injEq, Prod.mk.injEq] at hEq
    obtain ⟨h1, -⟩ := hEq
    rw [← h1]
    exact hok
  · rw [if_neg hsu] at hEq
    have hfid : (if applySettingsUpdate su settings = settings then applySettingsUpdate su settings
        else { applySettingsUpdate su settings with updated_at := now }).id = 1 := by
      by_cases hc : applySettingsUpdate su settings = settings
      · rw [if_pos hc, applySettingsUpdate_id]; exact hid
      · rw [if_neg hc]
        show (applySettingsUpdate su settings).id = 1
        rw [applySettingsUpdate_id]; exact hid
    simp only [Except.ok.injEq, Prod.mk.injEq] at hEq
    obtain ⟨h1, -⟩ := hEq
    rw [← h1]
    exact settingsTableOk_write s ⟨hok.1, hok.2⟩ _ hfid

/-- GET /api/settings preserves the singleton shape of the settings table. -/
theorem settingsTableOk_get (n : Int) (t : DBState) (hok : settingsTableOk t) :
    ∀ s2 r2, get_settings n t = Except.ok (s2, r2) → settingsTableOk s2 := by
  intro s2 r2 hEq
  unfold get_settings at hEq
  cases hfind : findSettings t with
  | some q =>
    rw [hfind] at hEq
    simp only [Except.ok.injEq, Prod.mk.injEq] at hEq
    obtain ⟨h1, -⟩ := hEq
    rw [← h1]
    exact hok
  | none =>
    rw [hfind] at hEq
    have hemp : t.system_settings = [] := settings_empty_of_find_none t hok.2 hfind
    simp only [Except.ok.injEq, Prod.mk.injEq] at hEq
    obtain ⟨h1, -⟩ := hEq
    rw [← h1]
    constructor
    · simp [hemp]
    · intro q hq
      simp [hemp] at hq
      rw [hq]
      rfl

/-- PATCH /api/settings preserves the singleton shape of the settings table. -/
theorem settingsTableOk_update (su : SettingsUpdate) (n : Int) (t : DBState)
    (hok : settingsTableOk t) :
    ∀ s2 r2, update_settings su n t = Except.ok (s2, r2) → settingsTableOk s2 := by
  intro s2 r2 hEq
  unfold update_settings at hEq
  cases hfind : findSettings t with
  | some q =>
    rw [hfind] at hEq
    exact settingsTableOk_core su n t q (findSettings_id t q hfind) hok s2 r2 hEq
  | none =>
    rw [hfind] at hEq
    have hemp : t.system_settings = [] := settings_empty_of_find_none t hok.2 hfind
    have hok1 : settingsTableOk
        { t with system_settings := t.system_settings ++ [defaultSettings n] } := by
      constructor
      · simp [hemp]
      · intro q hq
        simp [hemp] at hq
        rw [hq]
        rfl
    exact settingsTableOk_core su n _ (defaultSettings n) rfl hok1 s2 r2 hEq

/-- Claim C1: the settings singleton invariant.  From a store with no
settings row, the first GET /api/settings creates exactly one row — the id=1
row with the documented defaults — a second call returns that same row with
the store unchanged, and both GET and PATCH /api/settings preserve the
at-most-one-id=1-row shape of the table, so no second row ever appears. -/
theorem C1_settings_singleton (now1 now2 : Int) (s : DBState)
    (h : s.system_settings = []) :
    get_settings now1 s =
        Except.ok ({ s with system_settings := [defaultSettings now1] },
          defaultSettings now1) ∧
      get_settings now2 { s with system_settings := [defaultSettings now1] } =
        Except.ok ({ s with system_settings := [defaultSettings now1] },
          defaultSettings now1) ∧
      (∀ (n : Int) (t s2 : DBState) (r2 : SystemSettingsRow), settingsTableOk t →
        get_settings n t = Except.ok (s2, r2) → settingsTableOk s2) ∧
      (∀ (su : SettingsUpdate) (n : Int) (t s2 : DBState) (r2 : SystemSettingsRow),
        settingsTableOk t → update_settings su n t = Except.ok (s2, r2) →
          settingsTableOk s2) := by
  refine ⟨?_, ?_, ?_, ?_⟩
  · simp [get_settings, findSettings, h]
  · simp [get_settings, findSettings, defaultSettings]
  · intro n t s2 r2 hok hEq
    exact settingsTableOk_get n t hok s2 r2 hEq
  · intro su n t s2 r2 hok hEq
    exact settingsTableOk_update su n t hok s2 r2 hEq

/-- Witness for C1 on the concrete empty store: the first call creates the
default row, the second returns it unchanged. -/
theorem C1_settings_singleton_witness :
    get_settings 0 emptyDB =
        Except.ok ({ emptyDB with system_settings := [defaultSettings 0] },
          defaultSettings 0) ∧
      get_settings 1 { emptyDB with system_settings := [defaultSettings 0] } =
        Except.ok ({ emptyDB with system_settings := [defaultSettings 0] },
          defaultSettings 0) :=
  ⟨(C1_settings_singleton 0 1 emptyDB rfl).1, (C1_settings_singleton 0 1 emptyDB rfl).2.1⟩

/-- Each returned history row comes from the store and satisfies the WHERE
clauses. -/
theorem mem_get_temperature_history (sn : Option String) (lim : Nat)
    (ta tb : Option Int) (s : DBState) (r : TemperatureReadingRow)
    (h : r ∈ get_temperature_history sn lim ta tb s) :
    r ∈ s.temperature_readings ∧ historyPred sn ta tb r = true := by
  unfold get_temperature_history at h
  have h1 := List.mem_of_mem_take h
  rw [List.mem_insertionSort] at h1
  exact List.mem_filter.mp h1

/-- The history result is sorted ascending by timestamp. -/
theorem sorted_get_temperature_history (sn : Option String) (lim : Nat)
    (ta tb : Option Int) (s : DBState) :
    List.Sorted tempTsAsc (get_temperature_history sn lim ta tb s) := by
  unfold get_temperature_history
  exact List.Pairwise.sublist (List.take_sublist _ _) (List.sorted_insertionSort _ _)

/-- The history result has at most `limit` rows. -/
theorem length_get_temperature_history (sn : Option String) (lim : Nat)
    (ta tb : Option Int) (s : DBState) :
    (get_temperature_history sn lim ta tb s).length ≤ lim := by
  unfold get_temperature_history
  exact List.length_take_le _ _

/-- Claim C8: with both bounds given, GET /api/temperature_history returns
only readings whose timestamp lies in [start_time, end_time] inclusive,
ascending by timestamp, with at most `limit` rows; with both omitted it
returns up to `limit` rows from the store unconstrained by time, still
ascending. -/
theorem C8_temperature_history (sn : Option String) (lim : Nat) (t0 t1 : Int)
    (s : DBState) :
    (∀ r ∈ get_temperature_history sn lim (some t0) (some t1) s,
        t0 ≤ r.timestamp ∧ r.timestamp ≤ t1) ∧
      List.Sorted tempTsAsc (get_temperature_history sn lim (some t0) (some t1) s) ∧
      (get_temperature_history sn lim (some t0) (some t1) s).length ≤ lim ∧
      (∀ r ∈ get_temperature_history sn lim none none s, r ∈ s.temperature_readings) ∧
      List.Sorted tempTsAsc (get_temperature_history sn lim none none s) ∧
      (get_temperature_history sn lim none none s).length ≤ lim := by
  refine ⟨?_, sorted_get_temperature_history sn lim (some t0) (some t1) s,
    length_get_temperature_history sn lim (some t0) (some t1) s, ?_,
    sorted_get_temperature_history sn lim none none s,
    length_get_temperature_history sn lim none none s⟩
  · intro r hr
    obtain ⟨-, hp⟩ := mem_get_temperature_history sn lim (some t0) (some t1) s r hr
    unfold historyPred at hp
    simp only [Bool.and_eq_true, decide_eq_true_eq] at hp
    exact ⟨hp.1.2, hp.2⟩
  · intro r hr
    exact (mem_get_temperature_history sn lim none none s r hr).1

/-- Witness for C8: on the demo store, the reading with timestamp 5 is
returned for the range [3, 10] and indeed lies in the range. -/
theorem C8_temperature_history_witness :
    3 ≤ historyDemoRow1.timestamp ∧ historyDemoRow1.timestamp ≤ 10 :=
  (C8_temperature_history none 100 3 10 historyDemoDB).1 historyDemoRow1 (by decide)

/-- The head of the descending insertion sort is the strictly latest element
when one exists. -/
theorem head_insertionSort_solarTsDesc (l : List SolarPVRow) (x : SolarPVRow)
    (hx : x ∈ l) (hmax : ∀ y ∈ l, y ≠ x → y.timestamp < x.timestamp) :
    (l.insertionSort solarTsDesc).head? = some x := by
  cases hcase : l.insertionSort solarTsDesc with
  | nil =>
    have hmem : x ∈ l.insertionSort solarTsDesc := (List.mem_insertionSort _).mpr hx
    rw [hcase] at hmem
    exact absurd hmem (List.not_mem_nil x)
  | cons hd tl =>
    have hmem : hd ∈ l := by
      have h1 : hd ∈ l.insertionSort solarTsDesc := by
        rw [hcase]
        exact List.mem_cons_self hd tl
      exact (List.mem_insertionSort _).mp h1
    by_cases hhd : hd = x
    · rw [hhd]
      rfl
    · exfalso
      have hlt : hd.timestamp < x.timestamp := hmax hd hmem hhd
      have hxmem : x ∈ hd :: tl := by
        have h1 : x ∈ l.insertionSort solarTsDesc := (List.mem_insertionSort _).mpr hx
        rwa [hcase] at h1
      rcases List.mem_cons.mp hxmem with h1 | h2
      · exact hhd h1.symm
      · have hsorted2 : List.Sorted solarTsDesc (hd :: tl) := by
          rw [← hcase]
          exact List.sorted_insertionSort _ _
        have hle : x.timestamp ≤ hd.timestamp :=
          List.rel_of_sorted_cons hsorted2 x h2
        exact absurd hlt (not_lt.mpr hle)

/-- Claim C9: inserting a solar PV sample whose server timestamp is strictly
later than every stored sample, then fetching the latest solar sample as GET
/status does, returns the created record, which matches the input exactly on
all eight fields and carries the assigned id and timestamp. -/
theorem C9_solar_roundtrip (input : SolarPVDataCreate) (now : Int) (s : DBState)
    (h : ∀ y ∈ s.solar_pv_data, y.timestamp < now) :
    ∀ s1 row, receive_solar_data input now s = Except.ok (s1, row) →
      query_latest_solar s1 = some row ∧
        row.panel_voltage = input.panel_voltage ∧
        row.panel_current = input.panel_current ∧
        row.load_voltage = input.load_voltage ∧
        row.load_current = input.load_current ∧
        row.load_power = input.load_power ∧
        row.battery_voltage = input.battery_voltage ∧
        row.battery_current = input.battery_current ∧
        row.sunlight_intensity = input.sunlight_intensity ∧
        row.id = s.next_solar_id ∧
        row.timestamp = now := by
  intro s1 row hEq
  unfold receive_solar_data at hEq
  simp only [Except.ok.injEq, Prod.mk.injEq] at hEq
  obtain ⟨h1, h2⟩ := hEq
  subst h1
  subst h2
  refine ⟨?_, rfl, rfl, rfl, rfl, rfl, rfl, rfl, rfl, rfl, rfl⟩
  unfold query_latest_solar
  apply head_insertionSort_solarTsDesc
  · exact List.mem_append_right _ (List.mem_singleton.mpr rfl)
  · intro y hy hne
    rcases List.mem_append.mp hy with hy1 | hy2
    · exact h y hy1
    · exact absurd (List.mem_singleton.mp hy2) hne

/-- Witness for C9: inserting the demo sample at clock 3 into the empty store
and querying the latest solar sample returns exactly the created row. -/
theorem C9_solar_roundtrip_witness :
    query_latest_solar
        { emptyDB with solar_pv_data := [demoSolarRow], next_solar_id := 2 } =
        some demoSolarRow ∧
      demoSolarRow.id = 1 ∧ demoSolarRow.timestamp = 3 := by
  have h := C9_solar_roundtrip demoSolarInput 3 emptyDB (by decide)
    { emptyDB with solar_pv_data := [demoSolarRow], next_solar_id := 2 } demoSolarRow rfl
  exact ⟨h.1, h.2.2.2.2.2.2.2.2.2.1, h.2.2.2.2.2.2.2.2.2.2⟩
